import Mathlib

/-!
Verification of the ipm send path: a shallow embedding of
`src/include/ipm/Sender.hpp` and `src/plugins/ZmqSenderImpl.hpp`.

The backend (`ZmqSenderImpl`) is embedded from the source.  The body of
`Sender::send` is only declared in the header (its Sender.cpp is not among
the sources) and is therefore modelled from the specification, as marked on
the definition.
-/

namespace Ipm

/-- One ZeroMQ frame as accepted by the socket: the raw bytes of the
`zmq::message_t` and whether the `ZMQ_SNDMORE` flag was set on the call that
enqueued it (src/plugins/ZmqSenderImpl.hpp, lines 54 and 62). -/
structure Frag where
  data : List Nat
  more : Bool
  deriving DecidableEq, Repr

/-- Oracle for the unmodelled environment of `ZmqSenderImpl::send_`:
`accept n` is the boolean result of the n-th call to `m_socket.send`
(false on transient failure, true when the frame is queued), and `now k` is
the value of `std::chrono::steady_clock::now()` at its k-th read, read 0
being `start_time` (line 50), expressed in the unit of the timeout
comparison on line 64. -/
structure SendEnv where
  accept : Nat → Bool
  now : Nat → Int

/-- Observable activity of one `send_` call: number of `m_socket.send` calls
made, number of topic-frame calls that returned true, number of
payload-frame calls made, number of do-while iterations, and the frames the
socket accepted, in order. -/
structure RunState where
  sends : Nat
  topicSucc : Nat
  payloadAtt : Nat
  iters : Nat
  channel : List Frag
  deriving DecidableEq, Repr

/-- The state before any socket activity. -/
def zeroRS : RunState := ⟨0, 0, 0, 0, []⟩

/-- One iteration of the do-while body of `ZmqSenderImpl::send_`
(src/plugins/ZmqSenderImpl.hpp lines 52-63): send the topic frame with
`ZMQ_SNDMORE`; if that returned false, `continue` straight to the loop
condition; otherwise send the payload frame without `ZMQ_SNDMORE`.  Returns
the value of `res` observed by the loop condition, with the updated
observable state. -/
def sendIter (env : SendEnv) (topic payload : List Nat) (st : RunState) :
    Bool × RunState :=
  if env.accept st.sends then
    let payloadOk := env.accept (st.sends + 1)
    (payloadOk,
      { sends := st.sends + 2
        topicSucc := st.topicSucc + 1
        payloadAtt := st.payloadAtt + 1
        iters := st.iters + 1
        channel := st.channel ++ [⟨topic, true⟩]
          ++ (if payloadOk then [⟨payload, false⟩] else []) })
  else
    (false,
      { sends := st.sends + 1
        topicSucc := st.topicSucc
        payloadAtt := st.payloadAtt
        iters := st.iters + 1
        channel := st.channel })

/-- Exit mode of the fuelled loop: `outOfFuel` stands for a run longer than
the given fuel (the loop not having exited yet). -/
inductive LoopRes
  | success
  | timedOut
  | outOfFuel
  deriving DecidableEq, Repr

/-- The do-while loop of `ZmqSenderImpl::send_` (lines 52-64), one unit of
fuel per iteration.  The loop repeats while
`std::chrono::steady_clock::now() - start_time < timeout && !res`; on exit,
`res` decides between success and the timeout path of line 66.  The
`timeout` parameter here is the value standing on the right of the
comparison, over unbounded integers in one common time unit; the int64
nanosecond conversion the source applies to the milliseconds timeout,
which wraps for `s_block`, is modelled by `int64NsOfMs` and `send_cxx`
below. -/
def sendLoop (env : SendEnv) (topic payload : List Nat) (timeout start : Int) :
    Nat → RunState → LoopRes × RunState
  | 0, st => (.outOfFuel, st)
  | fuel + 1, st =>
    let r := sendIter env topic payload st
    if env.now r.2.iters - start < timeout ∧ r.1 = false then
      sendLoop env topic payload timeout start fuel r.2
    else if r.1 then (.success, r.2) else (.timedOut, r.2)

/-- Result of a `send_` call: success, or the thrown `SendTimeoutExpired`
carrying `timeout.count()` (line 67). -/
inductive SendOutcome
  | success
  | timeoutExpired (timeout : Int)
  deriving DecidableEq, Repr

/-- `ZmqSenderImpl::send_` (src/plugins/ZmqSenderImpl.hpp lines 47-71):
record `start_time`, run the retry loop, and when the loop exited with
`!res` throw `SendTimeoutExpired(ERS_HERE, timeout.count())`.  `none` stands
for a run that exceeds the fuel. -/
def send_ (env : SendEnv) (message : List Nat) (timeout : Int)
    (topic : List Nat) (fuel : Nat) : Option (SendOutcome × RunState) :=
  match sendLoop env topic message timeout (env.now 0) fuel zeroRS with
  | (.success, st) => some (.success, st)
  | (.timedOut, st) => some (.timeoutExpired timeout, st)
  | (.outOfFuel, _) => none

/-- `Sender::s_block = duration_t::max()` (src/include/ipm/Sender.hpp line
73): the count of `std::chrono::milliseconds::max()`. -/
def s_block : Int := 9223372036854775807

/-- `Sender::s_no_block = duration_t::zero()` (src/include/ipm/Sender.hpp
line 74). -/
def s_no_block : Int := 0

/-- Wrap-around reinterpretation of an integer as a signed 64-bit value:
the behaviour of int64 arithmetic on the mainstream implementations. -/
def wrap64 (x : Int) : Int := (x + 2 ^ 63) % 2 ^ 64 - 2 ^ 63

/-- The conversion that the comparison on line 64 applies to `timeout`: the
common type of `steady_clock::duration` (nanoseconds, int64 rep) and
`std::chrono::milliseconds` (int64 rep) is nanoseconds, so the milliseconds
count is multiplied by 10^6 in int64, wrapping on overflow; for
`milliseconds::max()` (`s_block`) the product wraps to -1000000. -/
def int64NsOfMs (ms : Int) : Int := wrap64 (ms * 1000000)

/-- `ZmqSenderImpl::send_` with the duration comparison of line 64 taken as
the C++ abstract machine performs it on the mainstream standard libraries:
clock readings are nanosecond counts and the milliseconds timeout is
converted through `int64NsOfMs` before the comparison.  The thrown
`SendTimeoutExpired` still carries `timeout.count()` in milliseconds. -/
def send_cxx (env : SendEnv) (message : List Nat) (timeout : Int)
    (topic : List Nat) (fuel : Nat) : Option (SendOutcome × RunState) :=
  match sendLoop env topic message (int64NsOfMs timeout) (env.now 0) fuel
      zeroRS with
  | (.success, st) => some (.success, st)
  | (.timedOut, st) => some (.timeoutExpired timeout, st)
  | (.outOfFuel, _) => none

/-- The ERS issues raised on the send path (src/include/ipm/Sender.hpp lines
39-44): `KnownStateForbidsSend` is the NotReady failure,
`NullPointerPassedToSend` the InvalidArgument failure, and
`SendTimeoutExpired` carries the timeout count in milliseconds. -/
inductive SendError
  | KnownStateForbidsSend
  | NullPointerPassedToSend
  | SendTimeoutExpired (timeout : Int)
  deriving DecidableEq, Repr

/-- `Sender::m_bytes` and `Sender::m_messages` (src/include/ipm/Sender.hpp
lines 112-113): cumulative counters held in atomics, modelled as plain
naturals of a sequential execution. -/
structure SenderCounters where
  m_bytes : Nat
  m_messages : Nat
  deriving DecidableEq, Repr

/-- Modelled from the spec: the body of `Sender::send` is declared in
src/include/ipm/Sender.hpp (lines 85-94) but defined in a Sender.cpp that is
not among the sources.  Following section 4.1 of the spec and the header
comment of lines 85-88: fail `KnownStateForbidsSend` when `can_send()` is
false; fail `NullPointerPassedToSend` when the buffer is null and the size
nonzero; succeed as a no-op when the size is zero; otherwise delegate to the
backend `send_`, increment the counters by the size and by one on success,
and convert the backend timeout into a `false` return exactly when
`no_tmoexcept_mode` is set.  The result carries the `RunState` of the
backend activity, `zeroRS` (no socket call, empty channel) when the backend
was never invoked; `Sum.inl` is a raised issue, `Sum.inr` the returned
boolean. -/
def Sender.send (can_send : Bool) (messageIsNull : Bool) (message : List Nat)
    (messageSize : Nat) (timeout : Int) (metadata : List Nat)
    (no_tmoexcept_mode : Bool) (env : SendEnv) (fuel : Nat)
    (ctr : SenderCounters) :
    Option ((SendError ⊕ Bool) × SenderCounters × RunState) :=
  if can_send = false then some (.inl .KnownStateForbidsSend, ctr, zeroRS)
  else if messageIsNull ∧ messageSize ≠ 0 then
    some (.inl .NullPointerPassedToSend, ctr, zeroRS)
  else if messageSize = 0 then some (.inr true, ctr, zeroRS)
  else
    match send_ env message timeout metadata fuel with
    | none => none
    | some (.success, rs) =>
        some (.inr true, ⟨ctr.m_bytes + messageSize, ctr.m_messages + 1⟩, rs)
    | some (.timeoutExpired t, rs) =>
        if no_tmoexcept_mode then some (.inr false, ctr, rs)
        else some (.inl (.SendTimeoutExpired t), ctr, rs)

/-- The private state of `ZmqSenderImpl` (src/plugins/ZmqSenderImpl.hpp
lines 73-77) together with the two socket attributes that
`connect_for_sends` acts on: the `ZMQ_SNDTIMEO` option and the address the
socket is bound to. -/
structure ZmqState where
  m_socket_connected : Bool
  m_connection_string : String
  sndtimeo : Option Int
  boundTo : Option String
  deriving DecidableEq, Repr

/-- `ZmqSenderImpl::ZmqSenderImpl` (lines 32-35): the init list constructs
only `m_socket`; the member `bool m_socket_connected;` of line 76 has no
initializer and the constructor does not assign it, so before
`connect_for_sends` it holds an indeterminate value, taken here as the
parameter. -/
def construct (indeterminate : Bool) : ZmqState :=
  { m_socket_connected := indeterminate
    m_connection_string := ""
    sndtimeo := none
    boundTo := none }

/-- `ZmqSenderImpl::can_send` (line 36): returns `m_socket_connected`. -/
def can_send (st : ZmqState) : Bool := st.m_socket_connected

/-- `ZmqSenderImpl::connect_for_sends` (lines 37-44): read the key
`connection_string` from the json descriptor with default
`"inproc://default"`, set `ZMQ_SNDTIMEO` to 1 ms, bind the socket to the
connection string, and set `m_socket_connected`.  The descriptor is
modelled by the value it holds at the key `connection_string`, if any. -/
def connect_for_sends (connection_string? : Option String) (st : ZmqState) :
    ZmqState :=
  let cs := connection_string?.getD "inproc://default"
  { st with
    m_connection_string := cs
    sndtimeo := some 1
    boundTo := some cs
    m_socket_connected := true }

/-- The frames up to and including the first frame without `ZMQ_SNDMORE`:
the first logical multi-part message a receiver takes from the channel. -/
def firstMessage : List Frag → List Frag
  | [] => []
  | f :: rest => if f.more then f :: firstMessage rest else [f]

/-- Channels made of blocks that each start with an accepted topic frame:
either a dangling topic frame (whose payload attempt failed) or a topic
frame immediately followed by its payload frame.  In such a channel a
payload frame is always immediately preceded by an accepted topic frame. -/
inductive FramedChan (topic payload : List Nat) : List Frag → Prop
  | nil : FramedChan topic payload []
  | addTopic (c : List Frag) : FramedChan topic payload c →
      FramedChan topic payload (c ++ [⟨topic, true⟩])
  | addPair (c : List Frag) : FramedChan topic payload c →
      FramedChan topic payload (c ++ [⟨topic, true⟩, ⟨payload, false⟩])

/-- Socket oracle that accepts every frame, with a constant clock. -/
def trueEnv : SendEnv := ⟨fun _ => true, fun _ => 0⟩

/-- Socket oracle that accepts nothing, with a clock advancing one unit per
read. -/
def falseEnv : SendEnv := ⟨fun _ => false, fun k => (k : Int)⟩

/-- Socket oracle that accepts nothing, with a constant clock. -/
def stuckEnv : SendEnv := ⟨fun _ => false, fun _ => 0⟩

/-- Socket oracle that rejects exactly the second socket call (the first
payload frame), with a constant clock. -/
def retryEnv : SendEnv := ⟨fun n => n != 1, fun _ => 0⟩

/-- Socket oracle that rejects exactly the first socket call and accepts
every call from index 1 on (ready after a short delay), with a nanosecond
clock advancing one unit per read. -/
def lateEnv : SendEnv := ⟨fun n => n != 0, fun k => (k : Int)⟩

/-- The state after an iteration of the retry loop whose topic-frame send
returned false: one more socket call, one more iteration, channel unchanged. -/
def stFail (st : RunState) : RunState :=
  { sends := st.sends + 1
    topicSucc := st.topicSucc
    payloadAtt := st.payloadAtt
    iters := st.iters + 1
    channel := st.channel }

/-- The state after an iteration whose topic frame was accepted but whose
payload-frame send returned false: the dangling topic frame stays on the
channel. -/
def stTopic (topic : List Nat) (st : RunState) : RunState :=
  { sends := st.sends + 2
    topicSucc := st.topicSucc + 1
    payloadAtt := st.payloadAtt + 1
    iters := st.iters + 1
    channel := st.channel ++ [⟨topic, true⟩] }

/-- The state after an iteration in which both frames were accepted. -/
def stPair (topic payload : List Nat) (st : RunState) : RunState :=
  { sends := st.sends + 2
    topicSucc := st.topicSucc + 1
    payloadAtt := st.payloadAtt + 1
    iters := st.iters + 1
    channel := st.channel ++ [⟨topic, true⟩, ⟨payload, false⟩] }

/-- Claim C9: `connect_for_sends` stores the connection-string value of the
descriptor, defaulting to `"inproc://default"` when the key is absent, sets
the per-call send timeout of the socket to 1 millisecond, binds the socket
to that address, and marks the backend ready, so `can_send()` returns true
afterwards. -/
theorem C9_connect_for_sends (info : Option String) (st : ZmqState) :
    (connect_for_sends info st).m_connection_string
        = info.getD "inproc://default" ∧
    (connect_for_sends info st).sndtimeo = some 1 ∧
    (connect_for_sends info st).boundTo
        = some ((connect_for_sends info st).m_connection_string) ∧
    can_send (connect_for_sends info st) = true ∧
    (connect_for_sends none st).m_connection_string = "inproc://default" := by
  simp [connect_for_sends, can_send]

/-- Claim C1, evaluation at the failing input: on a freshly constructed
`ZmqSenderImpl`, `can_send()` returns whatever the uninitialized
`m_socket_connected` happens to hold; when that indeterminate value reads
as true, `can_send()` is true although `connect_for_sends` has never run
(the socket is not bound to anything). -/
theorem C1_can_send_uninitialized :
    can_send (construct true) = true ∧ (construct true).boundTo = none :=
  ⟨rfl, rfl⟩

/-- Claim C7: a zero-size send on a ready sender is a no-op success —
counters unchanged, no socket activity — while a zero-size send on a
not-ready sender still fails with `KnownStateForbidsSend`: the readiness
check comes first. -/
theorem C7_zero_size (messageIsNull : Bool) (message : List Nat)
    (timeout : Int) (metadata : List Nat) (no_tmoexcept_mode : Bool)
    (env : SendEnv) (fuel : Nat) (ctr : SenderCounters) :
    Sender.send true messageIsNull message 0 timeout metadata
        no_tmoexcept_mode env fuel ctr = some (.inr true, ctr, zeroRS) ∧
    Sender.send false messageIsNull message 0 timeout metadata
        no_tmoexcept_mode env fuel ctr
        = some (.inl .KnownStateForbidsSend, ctr, zeroRS) := by
  constructor <;> simp [Sender.send]

/-- Claim C8: a send with a null buffer and nonzero size on a ready sender
fails with `NullPointerPassedToSend`, counters unchanged, and the backend
delivery routine is never reached (no socket activity). -/
theorem C8_null_pointer (message : List Nat) (messageSize : Nat)
    (hsz : messageSize ≠ 0) (timeout : Int) (metadata : List Nat)
    (no_tmoexcept_mode : Bool) (env : SendEnv) (fuel : Nat)
    (ctr : SenderCounters) :
    Sender.send true true message messageSize timeout metadata
        no_tmoexcept_mode env fuel ctr
        = some (.inl .NullPointerPassedToSend, ctr, zeroRS) := by
  simp [Sender.send, hsz]

/-- Witness for C8 at size 5. -/
theorem C8_null_pointer_witness :
    Sender.send true true [] 5 100 [] false trueEnv 3 ⟨0, 0⟩
        = some (.inl .NullPointerPassedToSend, ⟨0, 0⟩, zeroRS) :=
  C8_null_pointer [] 5 (by decide) 100 [] false trueEnv 3 ⟨0, 0⟩

/-- Claim C3: every successful send of nonzero size adds exactly the size to
the byte counter and exactly one to the message counter; every other call
(failures and the zero-size no-op) leaves both counters unchanged; in all
cases the counters never decrease. -/
theorem C3_counters (can_send messageIsNull : Bool) (message : List Nat)
    (messageSize : Nat) (timeout : Int) (metadata : List Nat)
    (no_tmoexcept_mode : Bool) (env : SendEnv) (fuel : Nat)
    (ctr : SenderCounters) (r : SendError ⊕ Bool) (ctr' : SenderCounters)
    (rs : RunState)
    (h : Sender.send can_send messageIsNull message messageSize timeout
      metadata no_tmoexcept_mode env fuel ctr = some (r, ctr', rs)) :
    (r = .inr true ∧ messageSize ≠ 0 →
        ctr'.m_bytes = ctr.m_bytes + messageSize ∧
        ctr'.m_messages = ctr.m_messages + 1) ∧
    (¬(r = .inr true ∧ messageSize ≠ 0) → ctr' = ctr) ∧
    ctr.m_bytes ≤ ctr'.m_bytes ∧ ctr.m_messages ≤ ctr'.m_messages := by
  unfold Sender.send at h
  split at h
  · simp only [Option.some.injEq, Prod.mk.injEq] at h
    obtain ⟨h1, h2, _⟩ := h
    subst h1; subst h2
    exact ⟨fun hc => absurd hc.1 (by simp), fun _ => rfl, le_refl _, le_refl _⟩
  · split at h
    · simp only [Option.some.injEq, Prod.mk.injEq] at h
      obtain ⟨h1, h2, _⟩ := h
      subst h1; subst h2
      exact ⟨fun hc => absurd hc.1 (by simp), fun _ => rfl, le_refl _, le_refl _⟩
    · split at h
      · simp only [Option.some.injEq, Prod.mk.injEq] at h
        obtain ⟨h1, h2, _⟩ := h
        subst h1; subst h2
        exact ⟨fun hc => absurd ‹messageSize = 0› hc.2, fun _ => rfl,
          le_refl _, le_refl _⟩
      · split at h
        · exact absurd h (by simp)
        · simp only [Option.some.injEq, Prod.mk.injEq] at h
          obtain ⟨h1, h2, _⟩ := h
          subst h1; subst h2
          exact ⟨fun _ => ⟨rfl, rfl⟩,
            fun hc => absurd ⟨rfl, ‹¬messageSize = 0›⟩ hc,
            Nat.le_add_right _ _, Nat.le_add_right _ _⟩
        · split at h
          · simp only [Option.some.injEq, Prod.mk.injEq] at h
            obtain ⟨h1, h2, _⟩ := h
            subst h1; subst h2
            exact ⟨fun hc => absurd hc.1 (by simp), fun _ => rfl,
              le_refl _, le_refl _⟩
          · simp only [Option.some.injEq, Prod.mk.injEq] at h
            obtain ⟨h1, h2, _⟩ := h
            subst h1; subst h2
            exact ⟨fun hc => absurd hc.1 (by simp), fun _ => rfl,
              le_refl _, le_refl _⟩

/-- Witness for C3: a send of 3 bytes on a fully accepting socket goes from
counters (0, 0) to (3, 1). -/
theorem C3_counters_witness :
    (⟨3, 1⟩ : SenderCounters).m_bytes
        = (⟨0, 0⟩ : SenderCounters).m_bytes + 3 ∧
    (⟨3, 1⟩ : SenderCounters).m_messages
        = (⟨0, 0⟩ : SenderCounters).m_messages + 1 := by
  have h := C3_counters true false [1, 2, 3] 3 100 [] false trueEnv 1 ⟨0, 0⟩
    (.inr true) ⟨3, 1⟩ ⟨2, 1, 1, 1, [⟨[], true⟩, ⟨[1, 2, 3], false⟩]⟩
    (by decide)
  exact h.1 ⟨rfl, by decide⟩

/-- Claim C2: when the retry loop exhausts the timeout window, `send_` raises
`SendTimeoutExpired` carrying the timeout value; one layer up, `send`
returns false instead of raising exactly when `no_tmoexcept_mode` is true,
returns true when the backend succeeded, and raises the two precondition
failures regardless of `no_tmoexcept_mode`. -/
theorem C2_timeout_propagation (env : SendEnv) (message metadata : List Nat)
    (timeout : Int) (fuel : Nat) (messageSize : Nat) (hsz : messageSize ≠ 0)
    (no_tmoexcept_mode : Bool) (ctr : SenderCounters) :
    (∀ st, sendLoop env metadata message timeout (env.now 0) fuel zeroRS
          = (.timedOut, st) →
        send_ env message timeout metadata fuel
          = some (.timeoutExpired timeout, st)) ∧
    (∀ st, send_ env message timeout metadata fuel
          = some (.timeoutExpired timeout, st) →
        Sender.send true false message messageSize timeout metadata
            no_tmoexcept_mode env fuel ctr
          = some ((if no_tmoexcept_mode then .inr false
              else .inl (.SendTimeoutExpired timeout)), ctr, st)) ∧
    (∀ st, send_ env message timeout metadata fuel = some (.success, st) →
        Sender.send true false message messageSize timeout metadata
            no_tmoexcept_mode env fuel ctr
          = some (.inr true,
              ⟨ctr.m_bytes + messageSize, ctr.m_messages + 1⟩, st)) ∧
    (∀ b : Bool, Sender.send false b message messageSize timeout metadata
          no_tmoexcept_mode env fuel ctr
        = some (.inl .KnownStateForbidsSend, ctr, zeroRS)) ∧
    Sender.send true true message messageSize timeout metadata
        no_tmoexcept_mode env fuel ctr
      = some (.inl .NullPointerPassedToSend, ctr, zeroRS) := by
  refine ⟨?_, ?_, ?_, ?_, ?_⟩
  · intro st hloop
    unfold send_
    rw [hloop]
  · intro st hback
    unfold Sender.send
    rw [hback]
    simp [hsz]
    split <;> simp
  · intro st hback
    unfold Sender.send
    rw [hback]
    simp [hsz]
  · intro b
    simp [Sender.send]
  · simp [Sender.send, hsz]

/-- Witness for C2: on a socket that accepts nothing and a clock advancing
one unit per read, a send with timeout 1 and `no_tmoexcept_mode` set
returns false without raising. -/
theorem C2_timeout_propagation_witness :
    Sender.send true false [9] 4 1 [] true falseEnv 1 ⟨0, 0⟩
      = some (.inr false, ⟨0, 0⟩, ⟨1, 0, 0, 1, []⟩) := by
  have h := C2_timeout_propagation falseEnv [9] [] 1 1 4 (by decide) true
    ⟨0, 0⟩
  have h1 := h.1 ⟨1, 0, 0, 1, []⟩ (by decide)
  have h2 := h.2.1 ⟨1, 0, 0, 1, []⟩ h1
  simpa using h2

/-- Unfolding of one loop iteration when the topic-frame send fails: the
payload frame is not attempted, and control goes to the deadline check. -/
theorem sendLoop_step_fail (env : SendEnv) (topic payload : List Nat)
    (timeout start : Int) (f : Nat) (st : RunState)
    (hc : env.accept st.sends = false) :
    sendLoop env topic payload timeout start (f + 1) st
      = if env.now (st.iters + 1) - start < timeout then
          sendLoop env topic payload timeout start f (stFail st)
        else (.timedOut, stFail st) := by
  simp [sendLoop, sendIter, hc, stFail]

/-- Unfolding of one loop iteration when the topic frame is accepted but the
payload-frame send fails: the dangling topic frame is on the channel and
control goes to the deadline check. -/
theorem sendLoop_step_topic (env : SendEnv) (topic payload : List Nat)
    (timeout start : Int) (f : Nat) (st : RunState)
    (hc : env.accept st.sends = true)
    (hp : env.accept (st.sends + 1) = false) :
    sendLoop env topic payload timeout start (f + 1) st
      = if env.now (st.iters + 1) - start < timeout then
          sendLoop env topic payload timeout start f (stTopic topic st)
        else (.timedOut, stTopic topic st) := by
  simp [sendLoop, sendIter, hc, hp, stTopic]

/-- Unfolding of one loop iteration when both frames are accepted: the loop
exits with success whatever the timeout. -/
theorem sendLoop_step_pair (env : SendEnv) (topic payload : List Nat)
    (timeout start : Int) (f : Nat) (st : RunState)
    (hc : env.accept st.sends = true)
    (hp : env.accept (st.sends + 1) = true) :
    sendLoop env topic payload timeout start (f + 1) st
      = (.success, stPair topic payload st) := by
  simp [sendLoop, sendIter, hc, hp, stPair]

/-- The iteration and socket-call counters never decrease along the loop. -/
theorem sendLoop_le (env : SendEnv) (topic payload : List Nat)
    (timeout start : Int) :
    ∀ fuel st,
      st.iters ≤ (sendLoop env topic payload timeout start fuel st).2.iters ∧
      st.sends ≤ (sendLoop env topic payload timeout start fuel st).2.sends := by
  intro fuel
  induction fuel with
  | zero => exact fun st => ⟨le_refl _, le_refl _⟩
  | succ f ih =>
    intro st
    cases hc : env.accept st.sends with
    | false =>
      rw [sendLoop_step_fail env topic payload timeout start f st hc]
      split
      · have h := ih (stFail st)
        simp only [stFail] at h ⊢
        omega
      · simp only [stFail]
        omega
    | true =>
      cases hp : env.accept (st.sends + 1) with
      | false =>
        rw [sendLoop_step_topic env topic payload timeout start f st hc hp]
        split
        · have h := ih (stTopic topic st)
          simp only [stTopic] at h ⊢
          omega
        · simp only [stTopic]
          omega
      | true =>
        rw [sendLoop_step_pair env topic payload timeout start f st hc hp]
        simp only [stPair]
        omega

/-- With at least one unit of fuel, the loop body runs at least once: one
more iteration and one more socket call than at entry. -/
theorem sendLoop_attempts (env : SendEnv) (topic payload : List Nat)
    (timeout start : Int) (f : Nat) (st : RunState) :
    st.iters + 1
        ≤ (sendLoop env topic payload timeout start (f + 1) st).2.iters ∧
    st.sends + 1
        ≤ (sendLoop env topic payload timeout start (f + 1) st).2.sends := by
  cases hc : env.accept st.sends with
  | false =>
    rw [sendLoop_step_fail env topic payload timeout start f st hc]
    split
    · have h := sendLoop_le env topic payload timeout start f (stFail st)
      simp only [stFail] at h ⊢
      omega
    · simp only [stFail]
      omega
  | true =>
    cases hp : env.accept (st.sends + 1) with
    | false =>
      rw [sendLoop_step_topic env topic payload timeout start f st hc hp]
      split
      · have h := sendLoop_le env topic payload timeout start f (stTopic topic st)
        simp only [stTopic] at h ⊢
        omega
      · simp only [stTopic]
        omega
    | true =>
      rw [sendLoop_step_pair env topic payload timeout start f st hc hp]
      simp only [stPair]
      omega

/-- When the clock reading never reaches the timeout past the start value,
the loop never exits through the timeout branch. -/
theorem sendLoop_no_timeout (env : SendEnv) (topic payload : List Nat)
    (timeout start : Int) (hclock : ∀ k, env.now k - start < timeout) :
    ∀ fuel st,
      (sendLoop env topic payload timeout start fuel st).1 ≠ .timedOut := by
  intro fuel
  induction fuel with
  | zero => intro st; simp [sendLoop]
  | succ f ih =>
    intro st
    cases hc : env.accept st.sends with
    | false =>
      rw [sendLoop_step_fail env topic payload timeout start f st hc,
        if_pos (hclock (st.iters + 1))]
      exact ih _
    | true =>
      cases hp : env.accept (st.sends + 1) with
      | false =>
        rw [sendLoop_step_topic env topic payload timeout start f st hc hp,
          if_pos (hclock (st.iters + 1))]
        exact ih _
      | true =>
        rw [sendLoop_step_pair env topic payload timeout start f st hc hp]
        simp

/-- When the clock never reaches the timeout and the socket accepts every
call from index N on, the loop succeeds once it has fuel for N + 1
iterations past the socket calls already made. -/
theorem sendLoop_success_of_accept (env : SendEnv) (topic payload : List Nat)
    (timeout start : Int) (hclock : ∀ k, env.now k - start < timeout)
    (N : Nat) (hacc : ∀ n, N ≤ n → env.accept n = true) :
    ∀ fuel st, N + 1 ≤ st.sends + fuel → 1 ≤ fuel →
      (sendLoop env topic payload timeout start fuel st).1 = .success := by
  intro fuel
  induction fuel with
  | zero => intro st _ h; omega
  | succ f ih =>
    intro st hN _
    cases hc : env.accept st.sends with
    | false =>
      have hlt : st.sends < N := by
        rcases Nat.lt_or_ge st.sends N with h | h
        · exact h
        · exact absurd hc (by simp [hacc st.sends h])
      rw [sendLoop_step_fail env topic payload timeout start f st hc,
        if_pos (hclock (st.iters + 1))]
      exact ih (stFail st) (by simp only [stFail]; omega) (by omega)
    | true =>
      cases hp : env.accept (st.sends + 1) with
      | false =>
        have hlt : st.sends + 1 < N := by
          rcases Nat.lt_or_ge (st.sends + 1) N with h | h
          · exact h
          · exact absurd hp (by simp [hacc _ h])
        rw [sendLoop_step_topic env topic payload timeout start f st hc hp,
          if_pos (hclock (st.iters + 1))]
        exact ih (stTopic topic st) (by simp only [stTopic]; omega) (by omega)
      | true =>
        rw [sendLoop_step_pair env topic payload timeout start f st hc hp]

/-- Claim C5: the do-while body runs before any elapsed-time check, so for
every timeout value a run with fuel makes at least one iteration and one
socket call; and with timeout `s_no_block`, a monotone clock and a socket
with no ready capacity, exactly one attempt is made — one iteration, one
socket call, nothing on the channel — and `send_` raises
`SendTimeoutExpired` carrying 0. -/
theorem C5_no_block (env : SendEnv) (topic payload : List Nat)
    (timeout : Int) (fuel : Nat) (hfuel : 1 ≤ fuel) :
    1 ≤ (sendLoop env topic payload timeout (env.now 0) fuel zeroRS).2.iters ∧
    1 ≤ (sendLoop env topic payload timeout (env.now 0) fuel zeroRS).2.sends ∧
    ((∀ k, env.now 0 ≤ env.now k) → (∀ n, env.accept n = false) →
      send_ env payload s_no_block topic fuel
        = some (.timeoutExpired 0, ⟨1, 0, 0, 1, []⟩)) := by
  obtain ⟨f, rfl⟩ : ∃ f, fuel = f + 1 := ⟨fuel - 1, by omega⟩
  have hz : zeroRS.iters = 0 := rfl
  have hz2 : zeroRS.sends = 0 := rfl
  have h := sendLoop_attempts env topic payload timeout (env.now 0) f zeroRS
  refine ⟨by omega, by omega, ?_⟩
  intro hmono hacc
  unfold send_
  rw [sendLoop_step_fail env topic payload s_no_block (env.now 0) f zeroRS
    (hacc zeroRS.sends)]
  rw [if_neg (by have := hmono (zeroRS.iters + 1); simp only [s_no_block]; omega)]
  rfl

/-- Witness for C5 on a socket that accepts nothing, with constant clock. -/
theorem C5_no_block_witness :
    1 ≤ (sendLoop stuckEnv [] [5] 7 (stuckEnv.now 0) 2 zeroRS).2.iters ∧
    send_ stuckEnv [5] s_no_block [] 2
      = some (.timeoutExpired 0, ⟨1, 0, 0, 1, []⟩) := by
  have h := C5_no_block stuckEnv [] [5] 7 2 (by omega)
  exact ⟨h.1, h.2.2 (fun k => le_refl _) (fun n => rfl)⟩

/-- Claim C6, evaluation at the failing input: at timeout `s_block`
(`milliseconds::max()`, the block-forever sentinel) the line-64 conversion
to the common type nanoseconds wraps to -1000000 in int64, so the loop
condition is false at its very first check.  On a socket that rejects only
the first call and is ready from the second call on, the run exits through
the timeout branch after exactly one iteration and one socket call and
throws `SendTimeoutExpired` carrying `s_block` — rather than the
elapsed-time exit being disabled and the retry reaching the now-ready
socket. -/
theorem C6_block_forever_overflow :
    int64NsOfMs s_block = -1000000 ∧
    send_cxx lateEnv [5] s_block [] 9
      = some (.timeoutExpired s_block, ⟨1, 0, 0, 1, []⟩) ∧
    (∀ n, lateEnv.accept (n + 1) = true) :=
  ⟨by decide, by decide, fun n => rfl⟩

/-- Claim C4, counterexample: on a socket that transiently rejects exactly
the first payload frame, a successful send that needed one internal retry
leaves three frames on the channel — the topic frame twice, then the
payload — so the single delivered logical message decomposes into three
fragments, not two. -/
theorem C4_counterexample :
    send_ retryEnv [7] 10 [3] 5
      = some (.success,
          ⟨4, 2, 2, 2, [⟨[3], true⟩, ⟨[3], true⟩, ⟨[7], false⟩]⟩) ∧
    firstMessage [⟨[3], true⟩, ⟨[3], true⟩, ⟨[7], false⟩]
      ≠ [(⟨[3], true⟩ : Frag), ⟨[7], false⟩] ∧
    (firstMessage [⟨[3], true⟩, ⟨[3], true⟩, ⟨[7], false⟩]).length = 3 := by
  refine ⟨by decide, by decide, by decide⟩

/-- Helper for the amended claim C4: when every frame following an accepted
frame is itself accepted, a successful pass of the loop appends exactly the
topic frame and the payload frame to the channel, and any other exit leaves
the channel unchanged. -/
theorem sendLoop_channel_atomic (env : SendEnv) (topic payload : List Nat)
    (timeout start : Int)
    (hacc : ∀ n, env.accept n = true → env.accept (n + 1) = true) :
    ∀ fuel st,
      ((sendLoop env topic payload timeout start fuel st).1 = .success →
        (sendLoop env topic payload timeout start fuel st).2.channel
          = st.channel ++ [⟨topic, true⟩, ⟨payload, false⟩]) ∧
      ((sendLoop env topic payload timeout start fuel st).1 ≠ .success →
        (sendLoop env topic payload timeout start fuel st).2.channel
          = st.channel) := by
  intro fuel
  induction fuel with
  | zero =>
    intro st
    refine ⟨fun h => absurd h (by simp [sendLoop]), fun _ => rfl⟩
  | succ f ih =>
    intro st
    cases hc : env.accept st.sends with
    | false =>
      rw [sendLoop_step_fail env topic payload timeout start f st hc]
      split
      · have h := ih (stFail st)
        simp only [stFail] at h ⊢
        exact h
      · exact ⟨fun h => absurd h (by simp), fun _ => by simp [stFail]⟩
    | true =>
      have hp : env.accept (st.sends + 1) = true := hacc st.sends hc
      rw [sendLoop_step_pair env topic payload timeout start f st hc hp]
      refine ⟨fun _ => by simp [stPair], fun h => absurd (by simp) h⟩

/-- Claim C4, amended: provided a frame following an accepted frame is never
rejected (the transport guarantee for multi-part messages, under which a
payload attempt never fails after its topic frame was accepted), every
successful `send_` — retries at the topic frame included — places exactly
two fragments on the channel, in order the metadata bytes then the payload
bytes, forming the one delivered logical message, even when the metadata is
empty. -/
theorem C4_two_fragments (env : SendEnv) (topic payload : List Nat)
    (timeout : Int) (fuel : Nat) (rs : RunState)
    (hacc : ∀ n, env.accept n = true → env.accept (n + 1) = true)
    (h : send_ env payload timeout topic fuel = some (.success, rs)) :
    rs.channel = [⟨topic, true⟩, ⟨payload, false⟩] ∧
    firstMessage rs.channel = [⟨topic, true⟩, ⟨payload, false⟩] ∧
    rs.channel.length = 2 := by
  have hch := sendLoop_channel_atomic env topic payload timeout (env.now 0)
    hacc fuel zeroRS
  unfold send_ at h
  rcases hl : sendLoop env topic payload timeout (env.now 0) fuel zeroRS
    with ⟨res, st0⟩
  rw [hl] at h hch
  cases res with
  | success =>
    simp only [Option.some.injEq, Prod.mk.injEq] at h
    obtain ⟨_, h2⟩ := h
    subst h2
    have hc := hch.1 rfl
    simp only [zeroRS, List.nil_append] at hc
    refine ⟨hc, ?_, ?_⟩
    · rw [hc]
      simp [firstMessage]
    · rw [hc]
      rfl
  | timedOut => simp at h
  | outOfFuel => exact Option.noConfusion h

/-- Witness for the amended C4, with empty metadata and an all-accepting
socket. -/
theorem C4_two_fragments_witness :
    (⟨2, 1, 1, 1, [⟨[], true⟩, ⟨[5], false⟩]⟩ : RunState).channel
        = [⟨[], true⟩, ⟨[5], false⟩] ∧
    firstMessage [⟨[], true⟩, ⟨[5], false⟩] = [⟨[], true⟩, ⟨[5], false⟩] :=
  ⟨(C4_two_fragments trueEnv [] [5] 7 1
      ⟨2, 1, 1, 1, [⟨[], true⟩, ⟨[5], false⟩]⟩
      (fun n _ => rfl) (by decide)).1,
   (C4_two_fragments trueEnv [] [5] 7 1
      ⟨2, 1, 1, 1, [⟨[], true⟩, ⟨[5], false⟩]⟩
      (fun n _ => rfl) (by decide)).2.1⟩

/-- Helper for claim C10: the loop preserves the framing discipline — blocks
of an accepted topic frame with or without its payload frame — and the
counter relations payload attempts = topic successes and socket calls =
iterations + payload attempts. -/
theorem sendLoop_framed (env : SendEnv) (topic payload : List Nat)
    (timeout start : Int) :
    ∀ fuel st,
      FramedChan topic payload st.channel →
      st.payloadAtt = st.topicSucc →
      st.sends = st.iters + st.payloadAtt →
      FramedChan topic payload
        (sendLoop env topic payload timeout start fuel st).2.channel ∧
      (sendLoop env topic payload timeout start fuel st).2.payloadAtt
        = (sendLoop env topic payload timeout start fuel st).2.topicSucc ∧
      (sendLoop env topic payload timeout start fuel st).2.sends
        = (sendLoop env topic payload timeout start fuel st).2.iters
          + (sendLoop env topic payload timeout start fuel st).2.payloadAtt := by
  intro fuel
  induction fuel with
  | zero => exact fun st h1 h2 h3 => ⟨h1, h2, h3⟩
  | succ f ih =>
    intro st h1 h2 h3
    cases hc : env.accept st.sends with
    | false =>
      rw [sendLoop_step_fail env topic payload timeout start f st hc]
      split
      · exact ih (stFail st) h1 h2 (by simp only [stFail]; omega)
      · exact ⟨h1, h2, by simp only [stFail]; omega⟩
    | true =>
      cases hp : env.accept (st.sends + 1) with
      | false =>
        rw [sendLoop_step_topic env topic payload timeout start f st hc hp]
        split
        · exact ih (stTopic topic st) (FramedChan.addTopic _ h1)
            (by simp only [stTopic]; omega) (by simp only [stTopic]; omega)
        · exact ⟨FramedChan.addTopic _ h1, by simp only [stTopic]; omega,
            by simp only [stTopic]; omega⟩
      | true =>
        rw [sendLoop_step_pair env topic payload timeout start f st hc hp]
        exact ⟨FramedChan.addPair _ h1, by simp only [stPair]; omega,
          by simp only [stPair]; omega⟩

/-- Claim C10: in every run of the retry loop from the start state, the
payload frame is attempted exactly when the topic frame was accepted in the
same iteration — payload attempts equal topic successes, and socket calls
equal iterations plus payload attempts, so an iteration whose topic send
failed made no payload call — and the channel is a sequence of blocks each
an accepted topic frame either dangling (its payload attempt failed) or
immediately followed by its payload frame: a payload frame is never
enqueued without a topic frame accepted immediately before it. -/
theorem C10_topic_gates_payload (env : SendEnv) (topic payload : List Nat)
    (timeout start : Int) (fuel : Nat) :
    FramedChan topic payload
      (sendLoop env topic payload timeout start fuel zeroRS).2.channel ∧
    (sendLoop env topic payload timeout start fuel zeroRS).2.payloadAtt
      = (sendLoop env topic payload timeout start fuel zeroRS).2.topicSucc ∧
    (sendLoop env topic payload timeout start fuel zeroRS).2.sends
      = (sendLoop env topic payload timeout start fuel zeroRS).2.iters
        + (sendLoop env topic payload timeout start fuel zeroRS).2.payloadAtt :=
  sendLoop_framed env topic payload timeout start fuel zeroRS
    FramedChan.nil rfl rfl

end Ipm
